import Mathlib

/-
  Verification of the retrieval-augmented answering and diagnostic agent
  (aiService: `generateRAGAnswer`, `diagnoseDiseaseFromSymptoms`).

  JavaScript strings are modelled as `List Char`.  The external capabilities
  (`generateEmbedding`, `findSimilarChunks` from embeddingService, and the
  Hugging Face chat-completion client) are modelled as components of an
  explicit environment record: the service module consumes them through
  narrow interfaces and their internals are not part of the verified core.
  Fallible steps return `Except` carrying the JavaScript error message.
-/

namespace JeevBandhu

/-- A JavaScript string, modelled as its list of characters. -/
abbrev JStr := List Char

/-- JavaScript `String.prototype.toLowerCase` restricted to ASCII letters,
which is all the service's keyword matching relies on. -/
def lowerStr (s : JStr) : JStr := s.map Char.toLower

/-- Characters matched by the JavaScript `\s` class (ASCII part) and trimmed
by `String.prototype.trim`. -/
def isJsSpace (c : Char) : Bool :=
  c == ' ' || c == '\t' || c == '\n' || c == '\r' || c == '\x0b' || c == '\x0c'

/-- JavaScript `String.prototype.trim`: drop whitespace from both ends. -/
def jsTrim (s : JStr) : JStr :=
  ((s.dropWhile isJsSpace).reverse.dropWhile isJsSpace).reverse

/-- JavaScript `String.prototype.includes`: `isSubstr pat s` holds when `pat`
occurs contiguously inside `s`. -/
def isSubstr (pat : JStr) : JStr → Bool
  | [] => pat.isPrefixOf ([] : JStr)
  | c :: rest => pat.isPrefixOf (c :: rest) || isSubstr pat rest

/-- Decimal rendering of a natural number, as JavaScript template-literal
interpolation of a nonnegative integer produces it. -/
def jsNumStr (n : Nat) : JStr := (Nat.repr n).data

/-- Leftmost-match search shared by the four field regexes of the response
parser: scan start positions left to right; at each position the
case-insensitive literal `label` must match and the continuation `rest`
(the remainder of the regex) must succeed on the text after the label,
otherwise the scan advances one position. -/
def scanMatch (label : JStr) (rest : JStr → Option JStr) : JStr → Option JStr
  | [] => none
  | c :: s =>
    if label.isPrefixOf (lowerStr (c :: s)) then
      match rest ((c :: s).drop label.length) with
      | some cap => some cap
      | none => scanMatch label rest s
    else scanMatch label rest s

/-- Continuation of `/LABEL:\s*(.+?)(?:\n|$)/i` after the whitespace run: the
lazy group needs at least one character, `.` does not match a newline, and
the group stops at the first newline or at the end of the text. -/
def lineTail : JStr → Option JStr
  | [] => none
  | c :: rest => if c = '\n' then none else some ((c :: rest).takeWhile (fun d => d ≠ '\n'))

/-- Backtracking of a greedy `\s*`: try consuming `m` whitespace characters
first, then `m - 1`, ... down to `0`, taking the first success of the
continuation `f`. -/
def wsBacktrack (f : JStr → Option JStr) (t : JStr) : Nat → Option JStr
  | 0 => f t
  | m + 1 =>
    match f (t.drop (m + 1)) with
    | some cap => some cap
    | none => wsBacktrack f t m

/-- `\s*(.+?)(?:\n|$)` with greedy `\s*` starting from the maximal
whitespace run. -/
def restLine (t : JStr) : Option JStr :=
  wsBacktrack lineTail t (t.takeWhile isJsSpace).length

/-- Growth of the lazy group of `/EXPLANATION:\s*(.+?)(?:\n|TREATMENT|$)/is`:
with the `s` flag the dot matches any character, and the group stops as soon
as a newline, a case-insensitive `TREATMENT`, or the end of text follows. -/
def growExpl : JStr → JStr
  | [] => []
  | c :: rest =>
    if c = '\n' then []
    else if ("treatment").data.isPrefixOf (lowerStr (c :: rest)) then []
    else c :: growExpl rest

/-- Continuation of the explanation regex after the whitespace run: the lazy
group consumes one character unconditionally, then grows until a stop. -/
def exTail : JStr → Option JStr
  | [] => none
  | c :: rest => some (c :: growExpl rest)

/-- `\s*(.+?)(?:\n|TREATMENT|$)` with greedy `\s*`. -/
def restExpl (t : JStr) : Option JStr :=
  wsBacktrack exTail t (t.takeWhile isJsSpace).length

/-- Continuation of `/TREATMENT:\s*(.+?)$/is`: the lazy dot-all group
captures everything up to the end of the text, and needs at least one
character. -/
def treatTail : JStr → Option JStr
  | [] => none
  | c :: rest => some (c :: rest)

/-- `\s*(.+?)$` (dot-all) with greedy `\s*`. -/
def restTreat (t : JStr) : Option JStr :=
  wsBacktrack treatTail t (t.takeWhile isJsSpace).length

/-- `response.match(/DISEASE:\s*(.+?)(?:\n|$)/i)`, capture group. -/
def matchDisease (r : JStr) : Option JStr := scanMatch ("disease:").data restLine r

/-- `response.match(/CONFIDENCE:\s*(.+?)(?:\n|$)/i)`, capture group. -/
def matchConfidence (r : JStr) : Option JStr := scanMatch ("confidence:").data restLine r

/-- `response.match(/EXPLANATION:\s*(.+?)(?:\n|TREATMENT|$)/is)`, capture group. -/
def matchExplanation (r : JStr) : Option JStr := scanMatch ("explanation:").data restExpl r

/-- `response.match(/TREATMENT:\s*(.+?)$/is)`, capture group. -/
def matchTreatment (r : JStr) : Option JStr := scanMatch ("treatment:").data restTreat r

/-- A pre-embedded knowledge chunk as stored by the chunk store.  Similarity
scores and embedding coordinates are numeric data that the service only
passes through, modelled as rationals. -/
structure TextChunk where
  text : JStr
  embedding : List Rat
  _id : Nat
deriving DecidableEq

/-- An element of the list returned by `findSimilarChunks`: a chunk paired
with its similarity score. -/
structure SimilarChunk where
  chunk : TextChunk
  similarity : Rat
deriving DecidableEq

/-- One element of the `sources` array returned by `generateRAGAnswer`. -/
structure SourceRef where
  text : JStr
  similarity : Rat
  chunkId : Nat
deriving DecidableEq

/-- The value resolved by `generateRAGAnswer`. -/
structure GeneratedAnswer where
  answer : JStr
  sources : List SourceRef
deriving DecidableEq

/-- The value resolved by `diagnoseDiseaseFromSymptoms`.  `rawResponse` is an
`Option` because the no-chunks return at lines 195-200 of the service builds
an object literal with no `rawResponse` key at all (the property is
`undefined`), while the parsed return always sets it. -/
structure Diagnosis where
  disease : JStr
  confidence : JStr
  explanation : JStr
  treatment : JStr
  rawResponse : Option JStr
deriving DecidableEq

/-- A chat message sent to or received from the completion client. -/
structure ChatMessage where
  role : JStr
  content : JStr
deriving DecidableEq

/-- One element of `chatResponse.choices`. -/
structure ChatChoice where
  message : ChatMessage
deriving DecidableEq

/-- The completion client's response object. -/
structure ChatResponse where
  choices : List ChatChoice
deriving DecidableEq

/-- The argument object of `client.chatCompletion`. -/
structure ChatRequest where
  model : JStr
  messages : List ChatMessage
  max_tokens : Nat
  temperature : Rat
  top_p : Rat
  frequency_penalty : Rat
  presence_penalty : Rat
deriving DecidableEq

/-- The external capabilities the service consumes: the embedding service
(`generateEmbedding`, `findSimilarChunks` from embeddingService) and the
Hugging Face client.  `apiKeyConfigured` models whether
`process.env.HUGGINGFACE_API_KEY` is set, i.e. whether `initializeHF()`
returns a non-null client. -/
structure Env where
  generateEmbedding : JStr → Except JStr (List Rat)
  findSimilarChunks : List Rat → List TextChunk → Nat → List SimilarChunk
  apiKeyConfigured : Bool
  chatCompletion : ChatRequest → Except JStr ChatResponse

/-- The fixed insufficient-information answer returned by `generateRAGAnswer`
when retrieval yields nothing (lines 66-69). -/
def insufficientAnswer : JStr :=
  ("I don't have enough information in the uploaded documents to answer this question. Please make sure you've uploaded relevant documents.").data

/-- The degraded answer synthesized in the inner catch of `generateRAGAnswer`
(line 114): numbered 200-character previews of the retrieved chunk texts
joined by blank lines, framed by fixed text quoting the question and
directing the user to a veterinarian. -/
def fallbackAnswerText (question : JStr) (relevantTexts : List JStr) : JStr :=
  ("Based on the available information in your documents:\n\n").data ++
  List.intercalate ("\n\n").data
    (relevantTexts.enum.map (fun p => jsNumStr (p.1 + 1) ++ (". ").data ++ p.2.take 200 ++ ("...").data)) ++
  ("\n\nI recommend consulting these sections for more details about \"").data ++ question ++
  ("\". For specific medical advice, please consult with a qualified veterinarian.").data

/-- The `sources` array built at lines 125-129: 200-character preview plus
ellipsis, the similarity score, and the chunk id. -/
def sourcesFor (similarChunks : List SimilarChunk) : List SourceRef :=
  similarChunks.map (fun s =>
    { text := s.chunk.text.take 200 ++ ("...").data
      similarity := s.similarity
      chunkId := s.chunk._id })

/-- Shallow embedding of `generateRAGAnswer(question, allChunks, topK)`
(lines 53-136).  Control flow follows the source: a failed question
embedding propagates to the outer catch, which rethrows with the prefix
`Failed to generate answer: `; empty retrieval returns the canned answer
before the client is touched; a missing API key throws outside the inner
try and therefore also reaches the outer catch.  The inner try is modelled
as always failing with `context is not defined`: the user message at line
99 interpolates the identifier `context`, which is not in scope in
`generateRAGAnswer` (the `context` of `buildRAGPrompt` is local to that
function), so evaluating the `messages` array throws a `ReferenceError`
before `client.chatCompletion` can be invoked.  The catch at lines 110-118
then synthesizes the degraded answer when chunks were retrieved, and the
common return at lines 123-130 attaches the sources. -/
def generateRAGAnswer (env : Env) (question : JStr) (allChunks : List TextChunk)
    (topK : Nat) : Except JStr GeneratedAnswer :=
  match env.generateEmbedding question with
  | Except.error e => Except.error (("Failed to generate answer: ").data ++ e)
  | Except.ok questionEmbedding =>
    let similarChunks := env.findSimilarChunks questionEmbedding allChunks topK
    if similarChunks.length = 0 then
      Except.ok { answer := insufficientAnswer, sources := [] }
    else
      if env.apiKeyConfigured then
        let innerAnswer : Except JStr JStr := Except.error ("context is not defined").data
        match innerAnswer with
        | Except.ok a => Except.ok { answer := a, sources := sourcesFor similarChunks }
        | Except.error _ =>
          if similarChunks.length > 0 then
            Except.ok
              { answer := fallbackAnswerText question (similarChunks.map (fun s => s.chunk.text))
                sources := sourcesFor similarChunks }
          else
            Except.error (("Failed to generate answer: ").data ++
              ("Unable to generate answer - please try rephrasing your question or upload more relevant documents.").data)
      else
        Except.error (("Failed to generate answer: ").data ++
          ("Hugging Face API key not configured").data)

/-- The bullet list of symptoms (line 183). -/
def symptomBullets (symptoms : List JStr) : JStr :=
  List.intercalate ("\n").data (symptoms.map (fun s => ("- ").data ++ s))

/-- The diagnostic query embedded at line 188 (built at line 184). -/
def diagnosticQuery (symptoms : List JStr) : JStr :=
  ("A cattle is showing these symptoms:\n").data ++ symptomBullets symptoms ++
  ("\n\nWhat disease does it likely have?").data

/-- The `[Medical Reference i]` context block (lines 206-208). -/
def medicalContext (similarChunks : List SimilarChunk) : JStr :=
  List.intercalate ("\n\n").data
    (similarChunks.enum.map (fun p =>
      ("[Medical Reference ").data ++ jsNumStr (p.1 + 1) ++ ("]\n").data ++ p.2.chunk.text))

/-- The system message of the diagnostic chat request (line 246), which ends
with the timestamp-derived `Analysis ID`. -/
def diagSystemContent (uniqueSeed : Nat) : JStr :=
  ("You are a veterinary AI assistant specializing in livestock health. Provide UNIQUE and PERSONALIZED comprehensive diagnostic reports with 7-10 sentences of detailed explanation. Each diagnosis should be tailored specifically to the exact symptom combination presented. Vary your diagnostic approach and treatment recommendations based on the specific symptoms. Always use the exact format requested. Analysis ID: ").data ++
  jsNumStr uniqueSeed

/-- The user message of the diagnostic chat request (line 250). -/
def diagUserContent (context symptomList : JStr) : JStr :=
  ("Medical Knowledge Base:\n").data ++ context ++
  ("\n\nPatient Symptoms (Unique Case):\n").data ++ symptomList ++
  ("\n\nProvide a PERSONALIZED diagnosis for this SPECIFIC symptom combination in EXACTLY this format:\nDISEASE: [specific disease name tailored to these exact symptoms]\nCONFIDENCE: [High/Medium/Low based on symptom specificity]\nEXPLANATION: [7-10 sentences providing a UNIQUE analysis explaining why THESE SPECIFIC symptoms match this disease, including the pathophysiology relevant to THIS case, the typical progression for THIS symptom pattern, distinguishing features particular to THIS presentation, and risk factors specific to THIS combination]\nTREATMENT: [PERSONALIZED detailed treatment approach specifically for THIS symptom combination, including targeted medication categories, specific supportive care measures relevant to THESE symptoms, monitoring recommendations, and veterinary consultation guidance]\n\nBe highly specific to this exact symptom combination. Make each diagnosis unique and personalized.").data

/-- The diagnostic chat request (lines 241-258). -/
def diagRequest (uniqueSeed : Nat) (context symptomList : JStr) : ChatRequest :=
  { model := ("mistralai/Mistral-7B-Instruct-v0.2").data
    messages :=
      [ { role := ("system").data, content := diagSystemContent uniqueSeed },
        { role := ("user").data, content := diagUserContent context symptomList } ]
    max_tokens := 900
    temperature := (75 : Rat) / 100
    top_p := (88 : Rat) / 100
    frequency_penalty := (40 : Rat) / 100
    presence_penalty := (30 : Rat) / 100 }

/-- `symptoms.some(s => s.toLowerCase().includes(pat))`, the predicate shape
used by every rule of the fallback classifier (lines 272-284). -/
def symptomMentions (symptoms : List JStr) (pat : JStr) : Bool :=
  symptoms.any (fun s => isSubstr pat (lowerStr s))

/-- Explanation template appended by the fever-and-respiratory rule (line 275). -/
def feverRespText : JStr :=
  ("The combination of fever and respiratory symptoms strongly suggests a respiratory tract infection. Pneumonia in cattle can be caused by various bacterial or viral pathogens. Early symptoms often include elevated body temperature, difficulty breathing, and coughing. If left untreated, the condition can progress to severe respiratory distress. The infection may be exacerbated by environmental factors such as poor ventilation or stress. Prompt veterinary intervention is crucial to prevent complications. Treatment typically involves antibiotics and supportive care.").data

/-- Explanation template appended by the diarrhea rule (line 278). -/
def diarrheaText : JStr :=
  ("Diarrhea in livestock often indicates gastrointestinal disturbance, which can result from bacterial infections, viral pathogens, or parasitic infestations. The condition leads to fluid loss and potential dehydration if not addressed promptly. Common causes include E. coli, Salmonella, or intestinal parasites. The severity can range from mild to life-threatening depending on the underlying cause. Affected animals may also show signs of dehydration, weight loss, and reduced appetite. Proper diagnosis requires fecal examination and laboratory testing. Treatment involves fluid therapy, antimicrobials if bacterial, and addressing the underlying cause.").data

/-- Explanation template appended by the lameness rule (line 281). -/
def lamenessText : JStr :=
  ("Lameness and difficulty walking in cattle can indicate various musculoskeletal problems or infectious conditions like foot rot. Foot rot is a common bacterial infection affecting the hooves, causing pain and mobility issues. The condition can significantly impact the animal's welfare and productivity. Environmental factors such as wet, muddy conditions increase susceptibility. If multiple limbs are affected, systemic diseases or nutritional deficiencies may be involved. Early detection and treatment are essential to prevent chronic lameness. Treatment typically includes antibiotics, hoof trimming, and improving environmental conditions.").data

/-- Explanation template appended by the milk rule (line 284). -/
def milkText : JStr :=
  ("Reduced milk production can be a sign of mastitis (udder infection) or metabolic disorders affecting lactating animals. Mastitis is characterized by inflammation of the mammary gland, often caused by bacterial infection. The condition not only reduces milk yield but also affects milk quality. Clinical signs may include swelling, heat, and pain in the udder. Subclinical mastitis can persist without obvious symptoms but still impact production. Metabolic causes could include ketosis or calcium deficiency. Proper diagnosis requires milk testing and clinical examination. Treatment depends on the specific cause but may include antibiotics, anti-inflammatory drugs, and supportive care.").data

/-- Explanation template appended by the default branch (line 286). -/
def defaultRuleText : JStr :=
  ("These symptoms warrant professional veterinary evaluation to determine the exact underlying condition. Multiple symptom presentation can indicate various infectious, metabolic, or environmental health challenges. A thorough clinical examination is needed to differentiate between potential diagnoses. Laboratory tests, including blood work and pathogen screening, may be necessary. The animal should be isolated if infectious disease is suspected to prevent spread. Environmental factors, nutrition, and stress levels should also be assessed. Early intervention improves prognosis and reduces the risk of complications. Please consult with a qualified veterinarian for accurate diagnosis and treatment planning.").data

/-- The fixed `TREATMENT` text of the synthesized fallback response (line 289). -/
def fallbackTreatmentText : JStr :=
  ("Immediate veterinary consultation is recommended for accurate diagnosis and treatment planning. Supportive care including proper nutrition, hydration, and stress reduction should be provided. Depending on the diagnosis, treatment may include antimicrobials, anti-inflammatory medications, or specific therapeutic interventions. Monitor the animal closely and isolate if infectious disease is suspected.").data

/-- The opening sentence of every fallback explanation (line 269): symptom
count, plural marker, and the comma-joined symptom list. -/
def fallbackBase (symptoms : List JStr) : JStr :=
  ("The animal is presenting with ").data ++ jsNumStr symptoms.length ++
  (" notable symptom").data ++
  (if symptoms.length > 1 then ("s").data else []) ++
  (": ").data ++ List.intercalate (", ").data symptoms ++ (". ").data

/-- The ordered decision table of the fallback classifier (lines 268-287):
`likelyDisease` and the explanation appended to `fallbackBase`, first match
wins, `General Infectious Disease` when no rule fires. -/
def fallbackRule (symptoms : List JStr) : JStr × JStr :=
  if symptomMentions symptoms ("fever").data && symptomMentions symptoms ("respiratory").data then
    (("Respiratory Infection (Possibly Pneumonia)").data, feverRespText)
  else if symptomMentions symptoms ("diarrhea").data then
    (("Gastrointestinal Infection or Parasitic Condition").data, diarrheaText)
  else if symptomMentions symptoms ("lameness").data then
    (("Musculoskeletal Disorder or Foot Rot").data, lamenessText)
  else if symptomMentions symptoms ("milk").data then
    (("Mastitis or Metabolic Disorder").data, milkText)
  else
    (("General Infectious Disease").data, defaultRuleText)

/-- The synthesized response of the fallback classifier (line 289): the four
labeled lines rendered from the selected rule. -/
def fallbackResponse (symptoms : List JStr) : JStr :=
  ("DISEASE: ").data ++ (fallbackRule symptoms).1 ++
  ("\nCONFIDENCE: Medium\nEXPLANATION: ").data ++
  (fallbackBase symptoms ++ (fallbackRule symptoms).2) ++
  ("\nTREATMENT: ").data ++ fallbackTreatmentText

/-- The structured-response parsing of lines 295-306: each field from its
regex capture (trimmed) or its default, with `rawResponse` always set to
the input text. -/
def parseDiagnosis (response : JStr) : Diagnosis :=
  { disease :=
      match matchDisease response with
      | some c => jsTrim c
      | none => ("Unable to diagnose").data
    confidence :=
      match matchConfidence response with
      | some c => jsTrim c
      | none => ("Low").data
    explanation :=
      match matchExplanation response with
      | some c => jsTrim c
      | none => response
    treatment :=
      match matchTreatment response with
      | some c => jsTrim c
      | none => ("Consult veterinarian").data
    rawResponse := some response }

/-- The no-chunks return of `diagnoseDiseaseFromSymptoms` (lines 195-200).
The object literal has no `rawResponse` key, so the property is absent. -/
def insufficientDiagnosis : Diagnosis :=
  { disease := ("Unknown").data
    confidence := ("Low").data
    explanation := ("Insufficient information in knowledge base to diagnose based on these symptoms.").data
    treatment := ("General care").data
    rawResponse := none }

/-- Shallow embedding of `diagnoseDiseaseFromSymptoms` minus the
`Date.now()` read, which is passed in as the already reduced `uniqueSeed`
(line 239).  Control flow follows the source: embedding failure propagates
to the outer catch with prefix `Failed to diagnose disease: `; empty
retrieval returns `insufficientDiagnosis` before the client is touched; a
missing API key throws outside the inner try (lines 228-232) and reaches
the outer catch; inside the inner try, a failed `chatCompletion` (or an
empty `choices` array, whose indexing throws a `TypeError`) routes to the
fallback classifier (lines 261-290); the response is then parsed. -/
def diagnoseCore (env : Env) (symptoms : List JStr) (allChunks : List TextChunk)
    (uniqueSeed : Nat) : Except JStr Diagnosis :=
  match env.generateEmbedding (diagnosticQuery symptoms) with
  | Except.error e => Except.error (("Failed to diagnose disease: ").data ++ e)
  | Except.ok queryEmbedding =>
    let similarChunks := env.findSimilarChunks queryEmbedding allChunks 5
    if similarChunks.length = 0 then
      Except.ok insufficientDiagnosis
    else
      if env.apiKeyConfigured then
        let innerResponse : Except JStr JStr :=
          match env.chatCompletion
              (diagRequest uniqueSeed (medicalContext similarChunks) (symptomBullets symptoms)) with
          | Except.error e => Except.error e
          | Except.ok resp =>
            match resp.choices with
            | [] => Except.error ("Cannot read properties of undefined (reading 'message')").data
            | choice :: _ => Except.ok (jsTrim choice.message.content)
        let response : JStr :=
          match innerResponse with
          | Except.ok r => r
          | Except.error _ => fallbackResponse symptoms
        Except.ok (parseDiagnosis response)
      else
        Except.error (("Failed to diagnose disease: ").data ++
          ("Hugging Face API key not configured").data)

/-- Shallow embedding of `diagnoseDiseaseFromSymptoms(symptoms, allChunks)`
(lines 178-316).  `dateNow` is the value of the ambient `Date.now()` read at
line 239; the function depends on it only through `dateNow % 1000`. -/
def diagnoseDiseaseFromSymptoms (env : Env) (symptoms : List JStr)
    (allChunks : List TextChunk) (dateNow : Nat) : Except JStr Diagnosis :=
  diagnoseCore env symptoms allChunks (dateNow % 1000)

/-- The fallback response with the selected rule's disease and explanation
made explicit; `fallbackResponse` is definitionally of this shape. -/
def fbShape (symptoms : List JStr) (D E : JStr) : JStr :=
  ("DISEASE: ").data ++ D ++ ("\nCONFIDENCE: Medium\nEXPLANATION: ").data ++
  (fallbackBase symptoms ++ E) ++ ("\nTREATMENT: ").data ++ fallbackTreatmentText

/-- Projection used to compare diagnosis results: the `rawResponse` of a
resolved diagnosis, `none` on a rejected call. -/
def rawOf (r : Except JStr Diagnosis) : Option JStr :=
  match r with
  | Except.ok d => d.rawResponse
  | Except.error _ => none

/-- A one-chunk corpus entry used as concrete test data. -/
def chunkA : TextChunk :=
  { text := ("Cows need hay.").data, embedding := [1], _id := 7 }

/-- Concrete environment: embedding succeeds, retrieval always returns the
single chunk, the API key is configured, and the chat completion always
fails. -/
def envA : Env :=
  { generateEmbedding := fun _ => Except.ok [1]
    findSimilarChunks := fun _ _ _ => [{ chunk := chunkA, similarity := 1 }]
    apiKeyConfigured := true
    chatCompletion := fun _ => Except.error ("model down").data }

/-- Concrete environment identical to `envA` except that the API key is not
configured. -/
def envNoKey : Env :=
  { generateEmbedding := fun _ => Except.ok [1]
    findSimilarChunks := fun _ _ _ => [{ chunk := chunkA, similarity := 1 }]
    apiKeyConfigured := false
    chatCompletion := fun _ => Except.error ("model down").data }

/-- Concrete environment in which retrieval finds nothing. -/
def envEmpty : Env :=
  { generateEmbedding := fun _ => Except.ok [1]
    findSimilarChunks := fun _ _ _ => []
    apiKeyConfigured := true
    chatCompletion := fun _ => Except.error ("model down").data }

/-- Concrete environment whose embedding capability fails. -/
def envEmbedFail : Env :=
  { generateEmbedding := fun _ => Except.error ("embed down").data
    findSimilarChunks := fun _ _ _ => [{ chunk := chunkA, similarity := 1 }]
    apiKeyConfigured := true
    chatCompletion := fun _ => Except.error ("model down").data }

/-- Concrete deterministic mocked provider whose chat completion answers
with the last four characters of the system message, which end with the
request's `Analysis ID` seed. -/
def envSeed : Env :=
  { generateEmbedding := fun _ => Except.ok [1]
    findSimilarChunks := fun _ _ _ => [{ chunk := chunkA, similarity := 1 }]
    apiKeyConfigured := true
    chatCompletion := fun req =>
      Except.ok { choices := [{ message :=
        { role := ("assistant").data
          content := ((req.messages.headD { role := [], content := [] }).content.reverse.take 4).reverse } }] } }

/-- The concrete answer value produced by `generateRAGAnswer` under `envA`. -/
def gA : GeneratedAnswer :=
  { answer := fallbackAnswerText ("q").data [("Cows need hay.").data]
    sources := [{ text := ("Cows need hay.").data ++ ("...").data
                  similarity := 1
                  chunkId := 7 }] }

/-- Raw text whose `EXPLANATION` section spans two lines before the
`TREATMENT:` label. -/
def ex7txt : JStr :=
  ("DISEASE: D\nCONFIDENCE: High\nEXPLANATION: first\nsecond\nTREATMENT: T").data

/-- Raw text with no `TREATMENT:` line. -/
def ex8txt : JStr :=
  ("DISEASE: Foo\nCONFIDENCE: High\nEXPLANATION: Bar").data

/-- `isSubstr` decides contiguous (infix) occurrence. -/
theorem isSubstr_iff {pat s : JStr} : isSubstr pat s = true ↔ pat <:+: s := by
  induction s with
  | nil => simp [isSubstr, List.isPrefixOf_iff_prefix]
  | cons c rest ih =>
    simp only [isSubstr, Bool.or_eq_true, List.isPrefixOf_iff_prefix, ih,
      List.infix_cons_iff]

/-- A regex whose pattern starts with a literal cannot match text in which
the (lowercased) literal does not occur. -/
theorem scanMatch_eq_none {label : JStr} (restf : JStr → Option JStr) {s : JStr}
    (h : isSubstr label (lowerStr s) = false) : scanMatch label restf s = none := by
  induction s with
  | nil => rfl
  | cons c cs ih =>
    have hmap : lowerStr (c :: cs) = Char.toLower c :: lowerStr cs := rfl
    rw [hmap, isSubstr, Bool.or_eq_false_iff] at h
    simp only [scanMatch, hmap, h.1, Bool.false_eq_true, if_false]
    exact ih h.2

/-- Soundness of the leftmost-match scan: any produced capture comes from a
successful run of the continuation on some suffix of the text. -/
theorem scanMatch_some_suffix {label : JStr} {restf : JStr → Option JStr} {s cap : JStr}
    (h : scanMatch label restf s = some cap) :
    ∃ t, t <:+ s ∧ restf t = some cap := by
  induction s with
  | nil => simp [scanMatch] at h
  | cons c cs ih =>
    rw [scanMatch] at h
    by_cases hp : label.isPrefixOf (lowerStr (c :: cs)) = true
    · rw [if_pos hp] at h
      cases hr : restf ((c :: cs).drop label.length) with
      | some cap2 =>
        rw [hr] at h
        refine ⟨(c :: cs).drop label.length, List.drop_suffix _ _, ?_⟩
        rw [hr]
        exact h
      | none =>
        rw [hr] at h
        obtain ⟨t, ht, hrt⟩ := ih h
        exact ⟨t, ht.trans (List.suffix_cons c cs), hrt⟩
    · rw [if_neg hp] at h
      obtain ⟨t, ht, hrt⟩ := ih h
      exact ⟨t, ht.trans (List.suffix_cons c cs), hrt⟩

/-- Completeness of the leftmost-match scan: a known suffix at which the
label matches and the continuation succeeds guarantees the scan returns
some capture. -/
theorem scanMatch_isSome {label : JStr} {restf : JStr → Option JStr} {s t : JStr}
    (hs : t <:+ s) (hlabel : label ≠ [])
    (hpre : label.isPrefixOf (lowerStr t) = true)
    (hrest : (restf (t.drop label.length)).isSome = true) :
    (scanMatch label restf s).isSome = true := by
  induction s with
  | nil =>
    rw [List.suffix_nil] at hs
    subst hs
    cases label with
    | nil => exact absurd rfl hlabel
    | cons x xs => simp [List.isPrefixOf] at hpre
  | cons c cs ih =>
    rw [scanMatch]
    by_cases hp : label.isPrefixOf (lowerStr (c :: cs)) = true
    · rw [if_pos hp]
      cases hr : restf ((c :: cs).drop label.length) with
      | some cap => simp
      | none =>
        rcases List.suffix_cons_iff.mp hs with heq | htail
        · subst heq
          rw [hr] at hrest
          simp at hrest
        · exact ih htail
    · rw [if_neg hp]
      rcases List.suffix_cons_iff.mp hs with heq | htail
      · subst heq
        exact absurd hpre hp
      · exact ih htail

/-- `treatTail` succeeds exactly on nonempty input and returns it whole. -/
theorem treatTail_some {u cap : JStr} (h : treatTail u = some cap) :
    cap = u ∧ u ≠ [] := by
  cases u with
  | nil => simp [treatTail] at h
  | cons c rest =>
    rw [treatTail] at h
    exact ⟨(Option.some.injEq _ _ ▸ h).symm ▸ rfl, by simp⟩

/-- Any capture of the treatment continuation is a nonempty suffix of the
text it ran on. -/
theorem restTreat_some {t cap : JStr} (h : restTreat t = some cap) :
    cap ≠ [] ∧ cap <:+ t := by
  rw [restTreat] at h
  generalize (t.takeWhile isJsSpace).length = m at h
  induction m with
  | zero =>
    rw [wsBacktrack] at h
    obtain ⟨hc, hu⟩ := treatTail_some h
    rw [hc]
    exact ⟨hu, List.suffix_refl _⟩
  | succ k ih =>
    rw [wsBacktrack] at h
    cases hr : treatTail (t.drop (k + 1)) with
    | some cap2 =>
      rw [hr] at h
      obtain ⟨hc, hu⟩ := treatTail_some hr
      cases h
      rw [hc]
      exact ⟨hu, List.drop_suffix _ _⟩
    | none =>
      rw [hr] at h
      exact ih h

/-- A nonempty suffix shares its last element with the whole list. -/
theorem suffix_getLast? {cap R : JStr} (h : cap <:+ R) (hne : cap ≠ []) :
    cap.getLast? = R.getLast? := by
  obtain ⟨pre, rfl⟩ := h
  exact (List.getLast?_append_of_ne_nil pre hne).symm

/-- A list ending in a non-whitespace character does not trim to empty. -/
theorem jsTrim_ne_nil_of_getLast {l : JStr} {c : Char}
    (hl : l.getLast? = some c) (hc : isJsSpace c = false) : jsTrim l ≠ [] := by
  have hmem : c ∈ l := List.mem_of_mem_getLast? (by rw [hl]; rfl)
  have hA : l.dropWhile isJsSpace ≠ [] := by
    rw [Ne, List.dropWhile_eq_nil_iff]
    intro hall
    exact absurd (hall c hmem) (by rw [hc]; simp)
  have hAl : (l.dropWhile isJsSpace).getLast? = some c := by
    rw [suffix_getLast? (List.dropWhile_suffix isJsSpace) hA, hl]
  rw [jsTrim, Ne, List.reverse_eq_nil_iff]
  cases hrev : (l.dropWhile isJsSpace).reverse with
  | nil => exact absurd (List.reverse_eq_nil_iff.mp hrev) hA
  | cons x xs =>
    have hx : x = c := by
      have := List.head?_reverse (l.dropWhile isJsSpace)
      rw [hrev, hAl] at this
      exact Option.some.injEq _ _ ▸ this
    subst hx
    rw [List.dropWhile_cons, hc]
    simp

/-- A list starting with a non-whitespace character does not trim to empty. -/
theorem jsTrim_cons_ne {c : Char} {xs : JStr} (hc : isJsSpace c = false) :
    jsTrim (c :: xs) ≠ [] := by
  rw [jsTrim, List.dropWhile_cons, hc]
  simp only [Bool.false_eq_true, if_false, Ne, List.reverse_eq_nil_iff,
    List.dropWhile_eq_nil_iff]
  intro hall
  have : c ∈ (c :: xs).reverse := by simp
  exact absurd (hall c this) (by rw [hc]; simp)

/-- When the question embedding succeeds, retrieval is nonempty, and the API
key is configured, `generateRAGAnswer` returns the degraded answer with the
sources of the retrieved chunks: the inner generation step always throws
(`context` is not in scope), and the catch synthesizes the fallback text. -/
theorem generateRAGAnswer_degraded {env : Env} {q : JStr} {allChunks : List TextChunk}
    {topK : Nat} {emb : List Rat}
    (hemb : env.generateEmbedding q = Except.ok emb)
    (hchunks : (env.findSimilarChunks emb allChunks topK).length ≠ 0)
    (hkey : env.apiKeyConfigured = true) :
    generateRAGAnswer env q allChunks topK =
      Except.ok
        { answer := fallbackAnswerText q
            ((env.findSimilarChunks emb allChunks topK).map (fun s => s.chunk.text))
          sources := sourcesFor (env.findSimilarChunks emb allChunks topK) } := by
  have hpos : 0 < (env.findSimilarChunks emb allChunks topK).length :=
    Nat.pos_of_ne_zero hchunks
  simp only [generateRAGAnswer, hemb, hkey, if_true]
  rw [if_neg hchunks, if_pos hpos]

/-- When the question embedding succeeds and retrieval is nonempty but the
API key is not configured, the `throw` at lines 82-84 sits outside the inner
try, so `generateRAGAnswer` rejects with the wrapped configuration error. -/
theorem generateRAGAnswer_noKey {env : Env} {q : JStr} {allChunks : List TextChunk}
    {topK : Nat} {emb : List Rat}
    (hemb : env.generateEmbedding q = Except.ok emb)
    (hchunks : (env.findSimilarChunks emb allChunks topK).length ≠ 0)
    (hkey : env.apiKeyConfigured = false) :
    generateRAGAnswer env q allChunks topK =
      Except.error (("Failed to generate answer: ").data ++
        ("Hugging Face API key not configured").data) := by
  simp only [generateRAGAnswer, hemb, hkey]
  rw [if_neg hchunks]
  simp

/-- When the query embedding succeeds, retrieval is nonempty, the API key is
configured, and the chat completion fails on the actual diagnostic request,
`diagnoseDiseaseFromSymptoms` returns the parsed fallback-classifier
response. -/
theorem diagnoseCore_fallback {env : Env} {symptoms : List JStr}
    {allChunks : List TextChunk} {seed : Nat} {emb : List Rat} {e : JStr}
    (hemb : env.generateEmbedding (diagnosticQuery symptoms) = Except.ok emb)
    (hchunks : (env.findSimilarChunks emb allChunks 5).length ≠ 0)
    (hkey : env.apiKeyConfigured = true)
    (hgen : env.chatCompletion
        (diagRequest seed (medicalContext (env.findSimilarChunks emb allChunks 5))
          (symptomBullets symptoms)) = Except.error e) :
    diagnoseCore env symptoms allChunks seed =
      Except.ok (parseDiagnosis (fallbackResponse symptoms)) := by
  simp only [diagnoseCore, hemb, hkey, if_true, hgen]
  rw [if_neg hchunks]

/-- When the query embedding succeeds and retrieval is nonempty but the API
key is not configured, the `throw` at lines 228-232 sits outside the inner
try, so `diagnoseDiseaseFromSymptoms` rejects with the wrapped
configuration error. -/
theorem diagnoseCore_noKey {env : Env} {symptoms : List JStr}
    {allChunks : List TextChunk} {seed : Nat} {emb : List Rat}
    (hemb : env.generateEmbedding (diagnosticQuery symptoms) = Except.ok emb)
    (hchunks : (env.findSimilarChunks emb allChunks 5).length ≠ 0)
    (hkey : env.apiKeyConfigured = false) :
    diagnoseCore env symptoms allChunks seed =
      Except.error (("Failed to diagnose disease: ").data ++
        ("Hugging Face API key not configured").data) := by
  simp only [diagnoseCore, hemb, hkey]
  rw [if_neg hchunks]
  simp

/-- Once the query embedding has succeeded and the API key is configured,
every control path of `diagnoseDiseaseFromSymptoms` resolves with some
diagnosis. -/
theorem diagnoseCore_isOk {env : Env} {symptoms : List JStr}
    {allChunks : List TextChunk} {seed : Nat} {emb : List Rat}
    (hemb : env.generateEmbedding (diagnosticQuery symptoms) = Except.ok emb)
    (hkey : env.apiKeyConfigured = true) :
    ∃ d, diagnoseCore env symptoms allChunks seed = Except.ok d := by
  simp only [diagnoseCore, hemb, hkey, if_true]
  by_cases hchunks : (env.findSimilarChunks emb allChunks 5).length = 0
  · rw [if_pos hchunks]
    exact ⟨insufficientDiagnosis, rfl⟩
  · rw [if_neg hchunks]
    cases hgen : env.chatCompletion
        (diagRequest seed (medicalContext (env.findSimilarChunks emb allChunks 5))
          (symptomBullets symptoms)) with
    | error e => exact ⟨_, rfl⟩
    | ok resp =>
      cases resp.choices with
      | nil => exact ⟨_, rfl⟩
      | cons choice rest => exact ⟨_, rfl⟩

/-- A list with a nonempty right factor is nonempty. -/
theorem append_ne_nil_right {a b : JStr} (hb : b ≠ []) : a ++ b ≠ [] := by
  simp [List.append_eq_nil, hb]

/-- Rule 1 of the fallback table: fever together with respiratory. -/
theorem fallbackRule_feverResp {symptoms : List JStr}
    (h : (symptomMentions symptoms ("fever").data &&
          symptomMentions symptoms ("respiratory").data) = true) :
    fallbackRule symptoms =
      (("Respiratory Infection (Possibly Pneumonia)").data, feverRespText) := by
  rw [fallbackRule, if_pos h]

/-- Rule 2 of the fallback table: diarrhea, when rule 1 did not fire. -/
theorem fallbackRule_diarrhea {symptoms : List JStr}
    (h1 : (symptomMentions symptoms ("fever").data &&
           symptomMentions symptoms ("respiratory").data) = false)
    (h2 : symptomMentions symptoms ("diarrhea").data = true) :
    fallbackRule symptoms =
      (("Gastrointestinal Infection or Parasitic Condition").data, diarrheaText) := by
  rw [fallbackRule, if_neg (by simp [h1]), if_pos h2]

/-- Rule 3 of the fallback table: lameness. -/
theorem fallbackRule_lameness {symptoms : List JStr}
    (h1 : (symptomMentions symptoms ("fever").data &&
           symptomMentions symptoms ("respiratory").data) = false)
    (h2 : symptomMentions symptoms ("diarrhea").data = false)
    (h3 : symptomMentions symptoms ("lameness").data = true) :
    fallbackRule symptoms =
      (("Musculoskeletal Disorder or Foot Rot").data, lamenessText) := by
  rw [fallbackRule, if_neg (by simp [h1]), if_neg (by simp [h2]), if_pos h3]

/-- Rule 4 of the fallback table: milk. -/
theorem fallbackRule_milk {symptoms : List JStr}
    (h1 : (symptomMentions symptoms ("fever").data &&
           symptomMentions symptoms ("respiratory").data) = false)
    (h2 : symptomMentions symptoms ("diarrhea").data = false)
    (h3 : symptomMentions symptoms ("lameness").data = false)
    (h4 : symptomMentions symptoms ("milk").data = true) :
    fallbackRule symptoms = (("Mastitis or Metabolic Disorder").data, milkText) := by
  rw [fallbackRule, if_neg (by simp [h1]), if_neg (by simp [h2]),
    if_neg (by simp [h3]), if_pos h4]

/-- Default branch of the fallback table. -/
theorem fallbackRule_default {symptoms : List JStr}
    (h1 : (symptomMentions symptoms ("fever").data &&
           symptomMentions symptoms ("respiratory").data) = false)
    (h2 : symptomMentions symptoms ("diarrhea").data = false)
    (h3 : symptomMentions symptoms ("lameness").data = false)
    (h4 : symptomMentions symptoms ("milk").data = false) :
    fallbackRule symptoms = (("General Infectious Disease").data, defaultRuleText) := by
  rw [fallbackRule, if_neg (by simp [h1]), if_neg (by simp [h2]),
    if_neg (by simp [h3]), if_neg (by simp [h4])]

/-- The synthesized fallback response always ends with the final period of
the fixed treatment text. -/
theorem fallbackResponse_getLast (symptoms : List JStr) :
    (fallbackResponse symptoms).getLast? = some '.' := by
  have hT : fallbackTreatmentText ≠ [] := by decide
  rw [fallbackResponse, List.getLast?_append_of_ne_nil _ hT]
  decide

/-- Parsing the synthesized fallback response always yields a nonempty
treatment: the `TREATMENT:` label occurs in it, any treatment capture is a
nonempty suffix of the response, and the response ends with a period. -/
theorem fallback_treatment_ne (symptoms : List JStr) :
    (parseDiagnosis (fallbackResponse symptoms)).treatment ≠ [] := by
  have hsfx : (("TREATMENT: ").data ++ fallbackTreatmentText) <:+ fallbackResponse symptoms := by
    rw [fallbackResponse, List.append_assoc]
    exact (List.suffix_cons '\n' (("TREATMENT: ").data ++ fallbackTreatmentText)).trans
      (List.suffix_append _ _)
  have hpre : ("treatment:").data.isPrefixOf
      (lowerStr (("TREATMENT: ").data ++ fallbackTreatmentText)) = true := by decide
  have hrest : (restTreat ((("TREATMENT: ").data ++ fallbackTreatmentText).drop
      ("treatment:").data.length)).isSome = true := by decide
  have hsome := scanMatch_isSome hsfx (by decide) hpre hrest
  obtain ⟨cap, hcap⟩ := Option.isSome_iff_exists.mp hsome
  obtain ⟨t, hts, hrt⟩ := scanMatch_some_suffix hcap
  obtain ⟨hcne, hcsfx⟩ := restTreat_some hrt
  have hlast : cap.getLast? = some '.' := by
    rw [suffix_getLast? (hcsfx.trans hts) hcne, fallbackResponse_getLast]
  have htrim : jsTrim cap ≠ [] := jsTrim_ne_nil_of_getLast hlast (by decide)
  simp only [parseDiagnosis]
  rw [show matchTreatment (fallbackResponse symptoms) = some cap from hcap]
  exact htrim

/-- A pattern without a newline that is not a prefix of `w` is not a prefix
of `w` followed by a newline and more text: the match cannot cross the
newline. -/
theorem not_prefix_append_nl {p w rest : JStr} (hnl : '\n' ∉ p)
    (hw : p.isPrefixOf w = false) :
    p.isPrefixOf (w ++ '\n' :: rest) = false := by
  by_contra hcon
  rw [Bool.not_eq_false, List.isPrefixOf_iff_prefix] at hcon
  rw [List.prefix_iff_eq_take, List.take_append_eq_append_take] at hcon
  by_cases hlen : p.length ≤ w.length
  · rw [Nat.sub_eq_zero_of_le hlen, List.take_zero, List.append_nil] at hcon
    have hpw : p <+: w := List.prefix_iff_eq_take.mpr hcon
    rw [← List.isPrefixOf_iff_prefix] at hpw
    rw [hpw] at hw
    cases hw
  · have hmem : '\n' ∈ p := by
      rcases hn : p.length - w.length with _ | k
      · omega
      · rw [hn] at hcon
        rw [hcon]
        simp [List.mem_append]
    exact hnl hmem

/-- The lazy explanation group grows through content that contains no
newline and no (case-insensitive) `treatment`, and stops exactly at the
newline that follows it. -/
theorem growExpl_append {u l2 : JStr} (hnl : '\n' ∉ u)
    (hsub : isSubstr ("treatment").data (lowerStr u) = false) :
    growExpl (u ++ '\n' :: l2) = u := by
  induction u with
  | nil => rfl
  | cons c cs ih =>
    have hlow : lowerStr (c :: cs) = Char.toLower c :: lowerStr cs := rfl
    rw [hlow, isSubstr, Bool.or_eq_false_iff] at hsub
    have hc : ¬(c = '\n') := fun h => hnl (h ▸ List.mem_cons_self c cs)
    have hcs : '\n' ∉ cs := fun h => hnl (List.mem_cons_of_mem c h)
    have hpre : ("treatment").data.isPrefixOf
        (lowerStr ((c :: cs) ++ '\n' :: l2)) = false := by
      have hsplit : lowerStr ((c :: cs) ++ '\n' :: l2) =
          lowerStr (c :: cs) ++ '\n' :: lowerStr l2 := by
        rw [lowerStr, List.map_append]
        rfl
      rw [hsplit]
      exact not_prefix_append_nl (by decide) (by rw [hlow]; exact hsub.1)
    rw [List.cons_append, growExpl, if_neg hc]
    rw [show ((c :: cs) ++ '\n' :: l2 : JStr) = c :: (cs ++ '\n' :: l2) from rfl] at hpre
    rw [hpre]
    simp only [Bool.false_eq_true, if_false]
    rw [ih hcs hsub.2]

/-- A leftmost-match scan succeeds immediately when the label matches at the
very start and the continuation succeeds. -/
theorem scanMatch_here {label : JStr} {restf : JStr → Option JStr} {s cap : JStr}
    (hlab : label ≠ [])
    (hpre : label.isPrefixOf (lowerStr s) = true)
    (hr : restf (s.drop label.length) = some cap) :
    scanMatch label restf s = some cap := by
  cases s with
  | nil =>
    cases label with
    | nil => exact absurd rfl hlab
    | cons x xs => simp [List.isPrefixOf] at hpre
  | cons c cs =>
    rw [scanMatch, if_pos hpre, hr]

/-- Explanation extraction on a text whose explanation content sits between
the label and a newline: the capture is exactly that content, stopping at
the newline whatever follows it. -/
theorem matchExplanation_first_line (c : Char) (cs l2 : JStr)
    (hc : isJsSpace c = false)
    (hnl : '\n' ∉ (c :: cs))
    (htr : isSubstr ("treatment").data (lowerStr (c :: cs)) = false) :
    matchExplanation (("EXPLANATION: ").data ++ (c :: cs) ++ ('\n' :: l2)) =
      some (c :: cs) := by
  have hcs_nl : '\n' ∉ cs := fun h => hnl (List.mem_cons_of_mem c h)
  have htr2 : isSubstr ("treatment").data (lowerStr cs) = false := by
    rw [show lowerStr (c :: cs) = Char.toLower c :: lowerStr cs from rfl, isSubstr,
      Bool.or_eq_false_iff] at htr
    exact htr.2
  have hgrow : growExpl (cs ++ '\n' :: l2) = cs := growExpl_append hcs_nl htr2
  have htk : ((' ' :: ((c :: cs) ++ '\n' :: l2)).takeWhile isJsSpace).length = 1 := by
    simp only [List.cons_append, List.takeWhile_cons, hc, Bool.false_eq_true, if_false]
    rfl
  have hre : restExpl (' ' :: ((c :: cs) ++ '\n' :: l2)) = some (c :: cs) := by
    rw [restExpl, htk]
    simp only [wsBacktrack]
    rw [show ((' ' :: ((c :: cs) ++ '\n' :: l2)).drop 1) = c :: (cs ++ '\n' :: l2) from rfl]
    rw [exTail, hgrow]
  have hpre : ("explanation:").data.isPrefixOf
      (lowerStr (("EXPLANATION: ").data ++ (c :: cs) ++ ('\n' :: l2))) = true := rfl
  refine scanMatch_here (by decide) hpre ?_
  rw [show ((("EXPLANATION: ").data ++ (c :: cs) ++ ('\n' :: l2)).drop
      ("explanation:").data.length) = ' ' :: ((c :: cs) ++ '\n' :: l2) from rfl]
  exact hre

/-- `fallbackResponse` through `fbShape`. -/
theorem fallbackResponse_fb (symptoms : List JStr) :
    fallbackResponse symptoms =
      fbShape symptoms (fallbackRule symptoms).1 (fallbackRule symptoms).2 := rfl

/-- Parsed fields of the rule-1 response: leftmost-match evaluation over the
concrete label lines, with the symptom-dependent explanation left opaque. -/
theorem fbFields_feverResp (symptoms : List JStr) :
    (parseDiagnosis (fbShape symptoms
        (("Respiratory Infection (Possibly Pneumonia)").data) feverRespText)).disease =
      ("Respiratory Infection (Possibly Pneumonia)").data ∧
    (parseDiagnosis (fbShape symptoms
        (("Respiratory Infection (Possibly Pneumonia)").data) feverRespText)).confidence =
      ("Medium").data ∧
    (parseDiagnosis (fbShape symptoms
        (("Respiratory Infection (Possibly Pneumonia)").data) feverRespText)).explanation ≠ [] := by
  refine ⟨rfl, rfl, ?_⟩
  obtain ⟨rest, hrest⟩ : ∃ rest, matchExplanation (fbShape symptoms
      (("Respiratory Infection (Possibly Pneumonia)").data) feverRespText) =
      some ('T' :: rest) := ⟨_, rfl⟩
  simp only [parseDiagnosis]
  rw [hrest]
  exact jsTrim_cons_ne (by decide)

/-- Parsed fields of the rule-2 response. -/
theorem fbFields_diarrhea (symptoms : List JStr) :
    (parseDiagnosis (fbShape symptoms
        (("Gastrointestinal Infection or Parasitic Condition").data) diarrheaText)).disease =
      ("Gastrointestinal Infection or Parasitic Condition").data ∧
    (parseDiagnosis (fbShape symptoms
        (("Gastrointestinal Infection or Parasitic Condition").data) diarrheaText)).confidence =
      ("Medium").data ∧
    (parseDiagnosis (fbShape symptoms
        (("Gastrointestinal Infection or Parasitic Condition").data) diarrheaText)).explanation ≠ [] := by
  refine ⟨rfl, rfl, ?_⟩
  obtain ⟨rest, hrest⟩ : ∃ rest, matchExplanation (fbShape symptoms
      (("Gastrointestinal Infection or Parasitic Condition").data) diarrheaText) =
      some ('T' :: rest) := ⟨_, rfl⟩
  simp only [parseDiagnosis]
  rw [hrest]
  exact jsTrim_cons_ne (by decide)

/-- Parsed fields of the rule-3 response. -/
theorem fbFields_lameness (symptoms : List JStr) :
    (parseDiagnosis (fbShape symptoms
        (("Musculoskeletal Disorder or Foot Rot").data) lamenessText)).disease =
      ("Musculoskeletal Disorder or Foot Rot").data ∧
    (parseDiagnosis (fbShape symptoms
        (("Musculoskeletal Disorder or Foot Rot").data) lamenessText)).confidence =
      ("Medium").data ∧
    (parseDiagnosis (fbShape symptoms
        (("Musculoskeletal Disorder or Foot Rot").data) lamenessText)).explanation ≠ [] := by
  refine ⟨rfl, rfl, ?_⟩
  obtain ⟨rest, hrest⟩ : ∃ rest, matchExplanation (fbShape symptoms
      (("Musculoskeletal Disorder or Foot Rot").data) lamenessText) =
      some ('T' :: rest) := ⟨_, rfl⟩
  simp only [parseDiagnosis]
  rw [hrest]
  exact jsTrim_cons_ne (by decide)

/-- Parsed fields of the rule-4 response. -/
theorem fbFields_milk (symptoms : List JStr) :
    (parseDiagnosis (fbShape symptoms
        (("Mastitis or Metabolic Disorder").data) milkText)).disease =
      ("Mastitis or Metabolic Disorder").data ∧
    (parseDiagnosis (fbShape symptoms
        (("Mastitis or Metabolic Disorder").data) milkText)).confidence = ("Medium").data ∧
    (parseDiagnosis (fbShape symptoms
        (("Mastitis or Metabolic Disorder").data) milkText)).explanation ≠ [] := by
  refine ⟨rfl, rfl, ?_⟩
  obtain ⟨rest, hrest⟩ : ∃ rest, matchExplanation (fbShape symptoms
      (("Mastitis or Metabolic Disorder").data) milkText) = some ('T' :: rest) := ⟨_, rfl⟩
  simp only [parseDiagnosis]
  rw [hrest]
  exact jsTrim_cons_ne (by decide)

/-- Parsed fields of the default-branch response. -/
theorem fbFields_default (symptoms : List JStr) :
    (parseDiagnosis (fbShape symptoms
        (("General Infectious Disease").data) defaultRuleText)).disease =
      ("General Infectious Disease").data ∧
    (parseDiagnosis (fbShape symptoms
        (("General Infectious Disease").data) defaultRuleText)).confidence = ("Medium").data ∧
    (parseDiagnosis (fbShape symptoms
        (("General Infectious Disease").data) defaultRuleText)).explanation ≠ [] := by
  refine ⟨rfl, rfl, ?_⟩
  obtain ⟨rest, hrest⟩ : ∃ rest, matchExplanation (fbShape symptoms
      (("General Infectious Disease").data) defaultRuleText) = some ('T' :: rest) := ⟨_, rfl⟩
  simp only [parseDiagnosis]
  rw [hrest]
  exact jsTrim_cons_ne (by decide)

/-- Parsing the synthesized fallback response always populates all four
textual fields, whatever the symptom list. -/
theorem fallback_fields_populated (symptoms : List JStr) :
    (parseDiagnosis (fallbackResponse symptoms)).disease ≠ [] ∧
    (parseDiagnosis (fallbackResponse symptoms)).confidence ≠ [] ∧
    (parseDiagnosis (fallbackResponse symptoms)).explanation ≠ [] ∧
    (parseDiagnosis (fallbackResponse symptoms)).treatment ≠ [] := by
  have hmain : (parseDiagnosis (fallbackResponse symptoms)).disease ≠ [] ∧
      (parseDiagnosis (fallbackResponse symptoms)).confidence ≠ [] ∧
      (parseDiagnosis (fallbackResponse symptoms)).explanation ≠ [] := ?_
  · exact ⟨hmain.1, hmain.2.1, hmain.2.2, fallback_treatment_ne symptoms⟩
  cases h1 : (symptomMentions symptoms ("fever").data &&
      symptomMentions symptoms ("respiratory").data) with
  | true =>
    rw [fallbackResponse_fb, fallbackRule_feverResp h1]
    obtain ⟨hd, hc, he⟩ := fbFields_feverResp symptoms
    exact ⟨by rw [hd]; decide, by rw [hc]; decide, he⟩
  | false =>
    cases h2 : symptomMentions symptoms ("diarrhea").data with
    | true =>
      rw [fallbackResponse_fb, fallbackRule_diarrhea h1 h2]
      obtain ⟨hd, hc, he⟩ := fbFields_diarrhea symptoms
      exact ⟨by rw [hd]; decide, by rw [hc]; decide, he⟩
    | false =>
      cases h3 : symptomMentions symptoms ("lameness").data with
      | true =>
        rw [fallbackResponse_fb, fallbackRule_lameness h1 h2 h3]
        obtain ⟨hd, hc, he⟩ := fbFields_lameness symptoms
        exact ⟨by rw [hd]; decide, by rw [hc]; decide, he⟩
      | false =>
        cases h4 : symptomMentions symptoms ("milk").data with
        | true =>
          rw [fallbackResponse_fb, fallbackRule_milk h1 h2 h3 h4]
          obtain ⟨hd, hc, he⟩ := fbFields_milk symptoms
          exact ⟨by rw [hd]; decide, by rw [hc]; decide, he⟩
        | false =>
          rw [fallbackResponse_fb, fallbackRule_default h1 h2 h3 h4]
          obtain ⟨hd, hc, he⟩ := fbFields_default symptoms
          exact ⟨by rw [hd]; decide, by rw [hc]; decide, he⟩

/-- C1: whenever the question embedding succeeds and retrieval returns at
least one chunk, any successfully returned `GeneratedAnswer` is exactly the
synthesized degraded answer (the `Based on the available information in
your documents:` text with numbered 200-character previews and the closing
consult-a-veterinarian note) together with the usual sources: the inner
generation step always throws before any provider call, because the user
message interpolates the undefined `context`, so the model-success return
path can never produce the result; and the inner `Unable to generate
answer` branch is unreachable because the retrieved-chunk list is non-empty
at that point (the only other exit, the missing-API-key throw, rejects the
call and returns no answer at all). -/
theorem C1_degraded_is_only_success {env : Env} {question : JStr}
    {allChunks : List TextChunk} {topK : Nat} {emb : List Rat}
    (hemb : env.generateEmbedding question = Except.ok emb)
    (hchunks : (env.findSimilarChunks emb allChunks topK).length ≠ 0)
    (g : GeneratedAnswer)
    (hg : generateRAGAnswer env question allChunks topK = Except.ok g) :
    g = { answer := fallbackAnswerText question
            ((env.findSimilarChunks emb allChunks topK).map (fun s => s.chunk.text))
          sources := sourcesFor (env.findSimilarChunks emb allChunks topK) } := by
  cases hkey : env.apiKeyConfigured with
  | true =>
    rw [generateRAGAnswer_degraded hemb hchunks hkey] at hg
    injection hg with h
    exact h.symm
  | false =>
    rw [generateRAGAnswer_noKey hemb hchunks hkey] at hg
    cases hg

/-- Witness for C1 at the concrete environment `envA`. -/
theorem C1_degraded_is_only_success_witness :
    envA.generateEmbedding ("q").data = Except.ok [1] ∧
    (envA.findSimilarChunks [1] [chunkA] 3).length ≠ 0 ∧
    generateRAGAnswer envA ("q").data [chunkA] 3 = Except.ok gA ∧
    gA = { answer := fallbackAnswerText ("q").data
             ((envA.findSimilarChunks [1] [chunkA] 3).map (fun s => s.chunk.text))
           sources := sourcesFor (envA.findSimilarChunks [1] [chunkA] 3) } :=
  ⟨rfl, by decide, rfl, C1_degraded_is_only_success rfl (by decide) gA rfl⟩

/-- C4 counterexample: the question embedding succeeds, a chunk is
retrieved, and the generation step fails — here because the API key is
missing, so the generation block throws before the inner try — yet the call
rejects with the wrapped provider-configuration error instead of returning
a normal degraded success. -/
theorem C4_counterexample :
    generateRAGAnswer envNoKey ("q").data [chunkA] 3 =
      Except.error (("Failed to generate answer: ").data ++
        ("Hugging Face API key not configured").data) := rfl

/-- C4 amended: provided the HF client is configured, a call in which the
embedding succeeds and at least one chunk is retrieved has its generation
step fail (the request interpolates the undefined `context`), and the
operation still returns a normal success whose answer is the concatenation
of numbered 200-character previews followed by the consult-a-veterinarian
note; the failure is not surfaced to the caller. -/
theorem C4_degraded_success {env : Env} {question : JStr}
    {allChunks : List TextChunk} {topK : Nat} {emb : List Rat}
    (hemb : env.generateEmbedding question = Except.ok emb)
    (hchunks : (env.findSimilarChunks emb allChunks topK).length ≠ 0)
    (hkey : env.apiKeyConfigured = true) :
    generateRAGAnswer env question allChunks topK =
      Except.ok { answer := fallbackAnswerText question
                    ((env.findSimilarChunks emb allChunks topK).map (fun s => s.chunk.text))
                  sources := sourcesFor (env.findSimilarChunks emb allChunks topK) } :=
  generateRAGAnswer_degraded hemb hchunks hkey

/-- Witness for the amended C4 at the concrete environment `envA`. -/
theorem C4_degraded_success_witness :
    envA.generateEmbedding ("q").data = Except.ok [1] ∧
    (envA.findSimilarChunks [1] [chunkA] 3).length ≠ 0 ∧
    envA.apiKeyConfigured = true ∧
    generateRAGAnswer envA ("q").data [chunkA] 3 =
      Except.ok { answer := fallbackAnswerText ("q").data
                    ((envA.findSimilarChunks [1] [chunkA] 3).map (fun s => s.chunk.text))
                  sources := sourcesFor (envA.findSimilarChunks [1] [chunkA] 3) } :=
  ⟨rfl, by decide, rfl, C4_degraded_success rfl (by decide) rfl⟩

/-- C10: on an embedding-step failure both operations reject — no fallback
or degraded result — and the surfaced message is the fixed prefix followed
by the original cause message. -/
theorem C10_embedding_fatal {env : Env} {question : JStr} {symptoms : List JStr}
    {allChunks : List TextChunk} {topK dateNow : Nat} {m1 m2 : JStr}
    (h1 : env.generateEmbedding question = Except.error m1)
    (h2 : env.generateEmbedding (diagnosticQuery symptoms) = Except.error m2) :
    generateRAGAnswer env question allChunks topK =
      Except.error (("Failed to generate answer: ").data ++ m1) ∧
    diagnoseDiseaseFromSymptoms env symptoms allChunks dateNow =
      Except.error (("Failed to diagnose disease: ").data ++ m2) := by
  constructor
  · simp only [generateRAGAnswer, h1]
  · simp only [diagnoseDiseaseFromSymptoms, diagnoseCore, h2]

/-- C2: `diagnoseDiseaseFromSymptoms` performs no validation of its symptom
list.  Called on the empty list it builds the (empty-bulleted) diagnostic
query, embeds it, retrieves, and — under an environment whose generation
step fails — resolves with a normal fallback diagnosis (`General Infectious
Disease`, no rule matches the empty list) instead of raising any
`ValidationError`. -/
theorem C2_empty_symptoms_processed :
    diagnoseDiseaseFromSymptoms envA [] [chunkA] 0 =
      Except.ok (parseDiagnosis (fallbackResponse [])) ∧
    (parseDiagnosis (fallbackResponse [])).disease =
      ("General Infectious Disease").data ∧
    (parseDiagnosis (fallbackResponse [])).confidence = ("Medium").data :=
  ⟨rfl, by decide, by decide⟩

/-- C3 counterexample: the symptom list is non-empty and the query embedding
succeeds, yet `diagnoseDiseaseFromSymptoms` rejects instead of returning a
`Diagnosis`, because the missing API key throws outside the inner try. -/
theorem C3_counterexample :
    diagnoseDiseaseFromSymptoms envNoKey [("fever").data] [chunkA] 0 =
      Except.error (("Failed to diagnose disease: ").data ++
        ("Hugging Face API key not configured").data) := rfl

/-- C3 amended: provided the HF client is configured, any call with a
non-empty symptom list whose query embedding succeeds resolves with some
`Diagnosis`; and when retrieval is non-empty and the generation step fails,
the result is the parsed fallback-classifier response, whose four textual
fields are all populated and whose `rawResponse` is non-null. -/
theorem C3_always_some_diagnosis {env : Env} {symptoms : List JStr}
    {allChunks : List TextChunk} {dateNow : Nat} {emb : List Rat}
    (_hsym : symptoms ≠ [])
    (hemb : env.generateEmbedding (diagnosticQuery symptoms) = Except.ok emb)
    (hkey : env.apiKeyConfigured = true) :
    (∃ d, diagnoseDiseaseFromSymptoms env symptoms allChunks dateNow = Except.ok d) ∧
    ((env.findSimilarChunks emb allChunks 5).length ≠ 0 →
     (∀ r, ∃ e, env.chatCompletion r = Except.error e) →
     diagnoseDiseaseFromSymptoms env symptoms allChunks dateNow =
       Except.ok (parseDiagnosis (fallbackResponse symptoms)) ∧
     (parseDiagnosis (fallbackResponse symptoms)).disease ≠ [] ∧
     (parseDiagnosis (fallbackResponse symptoms)).confidence ≠ [] ∧
     (parseDiagnosis (fallbackResponse symptoms)).explanation ≠ [] ∧
     (parseDiagnosis (fallbackResponse symptoms)).treatment ≠ [] ∧
     (parseDiagnosis (fallbackResponse symptoms)).rawResponse ≠ none) := by
  constructor
  · exact diagnoseCore_isOk hemb hkey
  · intro hchunks hgen
    obtain ⟨e, hge⟩ := hgen _
    obtain ⟨hd, hc, hex, ht⟩ := fallback_fields_populated symptoms
    refine ⟨diagnoseCore_fallback hemb hchunks hkey hge, hd, hc, hex, ht, ?_⟩
    simp [parseDiagnosis]

/-- Witness for the amended C3 at the concrete environment `envA`. -/
theorem C3_always_some_diagnosis_witness :
    ([("fever").data] : List JStr) ≠ [] ∧
    envA.generateEmbedding (diagnosticQuery [("fever").data]) = Except.ok [1] ∧
    envA.apiKeyConfigured = true ∧
    diagnoseDiseaseFromSymptoms envA [("fever").data] [chunkA] 0 =
      Except.ok (parseDiagnosis (fallbackResponse [("fever").data])) ∧
    (parseDiagnosis (fallbackResponse [("fever").data])).rawResponse ≠ none :=
  ⟨by decide, rfl, rfl,
    ((@C3_always_some_diagnosis envA [("fever").data] [chunkA] 0 [1]
        (by decide) rfl rfl).2 (by decide) (fun r => ⟨("model down").data, rfl⟩)).1,
    ((@C3_always_some_diagnosis envA [("fever").data] [chunkA] 0 [1]
        (by decide) rfl rfl).2 (by decide)
      (fun r => ⟨("model down").data, rfl⟩)).2.2.2.2.2⟩

/-- C5 counterexample: when retrieval returns no chunks, the diagnosis the
code returns carries no `rawResponse` at all (the object literal at lines
195-200 has no such key, so the property is `undefined`), not the empty
string the claim states. -/
theorem C5_counterexample :
    rawOf (diagnoseDiseaseFromSymptoms envEmpty [("fever").data] [] 0) ≠
      some ([] : JStr) := by decide

/-- C5 amended: when retrieval returns no chunks, both operations return
their canned success without the generative capability influencing the
result (the environment's client and chat completion are arbitrary, and in
`generateRAGAnswer` the key need not even be configured): the fixed
insufficient-information answer with empty sources, and the canonical
diagnosis `{disease Unknown, confidence Low, fixed explanation, treatment
General care}` whose `rawResponse` is absent (`undefined`), not `""`. -/
theorem C5_no_chunks_canned {env : Env} {question : JStr} {symptoms : List JStr}
    {allChunks : List TextChunk} {topK dateNow : Nat} {emb emb2 : List Rat}
    (hembq : env.generateEmbedding question = Except.ok emb)
    (hchq : (env.findSimilarChunks emb allChunks topK).length = 0)
    (hembs : env.generateEmbedding (diagnosticQuery symptoms) = Except.ok emb2)
    (hchs : (env.findSimilarChunks emb2 allChunks 5).length = 0) :
    generateRAGAnswer env question allChunks topK =
      Except.ok { answer := insufficientAnswer, sources := [] } ∧
    diagnoseDiseaseFromSymptoms env symptoms allChunks dateNow =
      Except.ok insufficientDiagnosis ∧
    insufficientDiagnosis.rawResponse = none := by
  refine ⟨?_, ?_, rfl⟩
  · simp only [generateRAGAnswer, hembq]
    rw [if_pos hchq]
  · simp only [diagnoseDiseaseFromSymptoms, diagnoseCore, hembs]
    rw [if_pos hchs]

/-- Witness for the amended C5 at the concrete environment `envEmpty`. -/
theorem C5_no_chunks_canned_witness :
    envEmpty.generateEmbedding ("q").data = Except.ok [1] ∧
    (envEmpty.findSimilarChunks [1] [] 3).length = 0 ∧
    envEmpty.generateEmbedding (diagnosticQuery [("fever").data]) = Except.ok [1] ∧
    (envEmpty.findSimilarChunks [1] [] 5).length = 0 ∧
    (generateRAGAnswer envEmpty ("q").data [] 3 =
      Except.ok { answer := insufficientAnswer, sources := [] } ∧
     diagnoseDiseaseFromSymptoms envEmpty [("fever").data] [] 0 =
      Except.ok insufficientDiagnosis ∧
     insufficientDiagnosis.rawResponse = none) :=
  ⟨rfl, rfl, rfl, rfl, C5_no_chunks_canned rfl rfl rfl rfl⟩

/-- C6: the fallback classifier is an ordered, first-match-wins rule table
over case-insensitive substring tests on the individual symptoms.  With the
pipeline otherwise healthy and generation forced to fail: any symptom list
with a symptom mentioning fever and a symptom mentioning respiratory
distress yields a disease containing `Respiratory` with confidence exactly
`Medium`; and any list with a symptom mentioning diarrhea, when the
fever-and-respiratory rule did not fire, yields the
gastrointestinal/parasitic disease. -/
theorem C6_fallback_rule_table {env : Env} {symptoms : List JStr}
    {allChunks : List TextChunk} {dateNow : Nat} {emb : List Rat}
    (hemb : env.generateEmbedding (diagnosticQuery symptoms) = Except.ok emb)
    (hchunks : (env.findSimilarChunks emb allChunks 5).length ≠ 0)
    (hkey : env.apiKeyConfigured = true)
    (hgen : ∀ r, ∃ e, env.chatCompletion r = Except.error e) :
    ((∃ s ∈ symptoms, ("fever").data <:+: lowerStr s) →
     (∃ s ∈ symptoms, ("respiratory distress").data <:+: lowerStr s) →
     ∃ d, diagnoseDiseaseFromSymptoms env symptoms allChunks dateNow = Except.ok d ∧
       ("Respiratory").data <:+: d.disease ∧ d.confidence = ("Medium").data) ∧
    ((∃ s ∈ symptoms, ("diarrhea").data <:+: lowerStr s) →
     (symptomMentions symptoms ("fever").data &&
      symptomMentions symptoms ("respiratory").data) = false →
     ∃ d, diagnoseDiseaseFromSymptoms env symptoms allChunks dateNow = Except.ok d ∧
       (("Gastrointestinal").data <:+: d.disease ∨
        ("Parasitic").data <:+: d.disease)) := by
  obtain ⟨e, hge⟩ := hgen (diagRequest (dateNow % 1000)
    (medicalContext (env.findSimilarChunks emb allChunks 5)) (symptomBullets symptoms))
  have hmain : diagnoseDiseaseFromSymptoms env symptoms allChunks dateNow =
      Except.ok (parseDiagnosis (fallbackResponse symptoms)) :=
    diagnoseCore_fallback hemb hchunks hkey hge
  constructor
  · intro hf hr
    obtain ⟨s1, hs1, hin1⟩ := hf
    obtain ⟨s2, hs2, hin2⟩ := hr
    have hb1 : symptomMentions symptoms ("fever").data = true :=
      List.any_eq_true.mpr ⟨s1, hs1, isSubstr_iff.mpr hin1⟩
    have hb2 : symptomMentions symptoms ("respiratory").data = true :=
      List.any_eq_true.mpr ⟨s2, hs2, isSubstr_iff.mpr
        ((isSubstr_iff.mp (by decide)).trans hin2)⟩
    have hcond : (symptomMentions symptoms ("fever").data &&
        symptomMentions symptoms ("respiratory").data) = true := by
      rw [hb1, hb2]
      rfl
    refine ⟨parseDiagnosis (fallbackResponse symptoms), hmain, ?_, ?_⟩
    · have hdis : (parseDiagnosis (fallbackResponse symptoms)).disease =
          ("Respiratory Infection (Possibly Pneumonia)").data := by
        rw [fallbackResponse_fb, fallbackRule_feverResp hcond]
        exact (fbFields_feverResp symptoms).1
      rw [hdis]
      exact isSubstr_iff.mp (by decide)
    · rw [fallbackResponse_fb, fallbackRule_feverResp hcond]
      exact (fbFields_feverResp symptoms).2.1
  · intro hdia hnot
    obtain ⟨s1, hs1, hin1⟩ := hdia
    have hb : symptomMentions symptoms ("diarrhea").data = true :=
      List.any_eq_true.mpr ⟨s1, hs1, isSubstr_iff.mpr hin1⟩
    refine ⟨parseDiagnosis (fallbackResponse symptoms), hmain, Or.inl ?_⟩
    have hdis : (parseDiagnosis (fallbackResponse symptoms)).disease =
        ("Gastrointestinal Infection or Parasitic Condition").data := by
      rw [fallbackResponse_fb, fallbackRule_diarrhea hnot hb]
      exact (fbFields_diarrhea symptoms).1
    rw [hdis]
    exact isSubstr_iff.mp (by decide)

/-- Witness for C6 at the concrete environment `envA`. -/
theorem C6_fallback_rule_table_witness :
    (∃ d, diagnoseDiseaseFromSymptoms envA
        [("high fever").data, ("respiratory distress").data] [chunkA] 42 =
          Except.ok d ∧
      ("Respiratory").data <:+: d.disease ∧ d.confidence = ("Medium").data) ∧
    (∃ d, diagnoseDiseaseFromSymptoms envA [("watery diarrhea").data] [chunkA] 7 =
        Except.ok d ∧
      (("Gastrointestinal").data <:+: d.disease ∨
       ("Parasitic").data <:+: d.disease)) :=
  ⟨(@C6_fallback_rule_table envA
      [("high fever").data, ("respiratory distress").data] [chunkA] 42 [1]
      rfl (by decide) rfl (fun r => ⟨("model down").data, rfl⟩)).1
      ⟨("high fever").data, by decide, isSubstr_iff.mp (by decide)⟩
      ⟨("respiratory distress").data, by decide, isSubstr_iff.mp (by decide)⟩,
   (@C6_fallback_rule_table envA [("watery diarrhea").data] [chunkA] 7 [1]
      rfl (by decide) rfl (fun r => ⟨("model down").data, rfl⟩)).2
      ⟨("watery diarrhea").data, by decide, isSubstr_iff.mp (by decide)⟩
      (by decide)⟩

/-- C7 counterexample: on raw text whose `EXPLANATION` section spans two
lines before `TREATMENT:`, the extracted explanation is only the first
line, not the entire content up to the `TREATMENT` label: the regex's lazy
group stops at the first newline, which the alternation lists before
`TREATMENT`. -/
theorem C7_counterexample :
    (parseDiagnosis ex7txt).explanation ≠ ("first\nsecond").data ∧
    (parseDiagnosis ex7txt).explanation = ("first").data :=
  ⟨by decide, by decide⟩

/-- C7 amended: the explanation capture starts after the label and stops at
the first newline (or a `TREATMENT` occurrence, or end of text), so for any
explanation content without internal newline or `treatment` occurrence the
extracted explanation is exactly that first line, trimmed. -/
theorem C7_explanation_stops_at_newline (c : Char) (cs l2 : JStr)
    (hc : isJsSpace c = false)
    (hnl : '\n' ∉ (c :: cs))
    (htr : isSubstr ("treatment").data (lowerStr (c :: cs)) = false) :
    (parseDiagnosis (("EXPLANATION: ").data ++ (c :: cs) ++ ('\n' :: l2))).explanation =
      jsTrim (c :: cs) := by
  simp only [parseDiagnosis]
  rw [matchExplanation_first_line c cs l2 hc hnl htr]

/-- Witness for the amended C7 on the two-line explanation text. -/
theorem C7_explanation_stops_at_newline_witness :
    isJsSpace 'f' = false ∧
    '\n' ∉ ('f' :: ("irst").data) ∧
    isSubstr ("treatment").data (lowerStr ('f' :: ("irst").data)) = false ∧
    (parseDiagnosis (("EXPLANATION: ").data ++ ('f' :: ("irst").data) ++
        ('\n' :: ("second\nTREATMENT: T").data))).explanation =
      jsTrim ('f' :: ("irst").data) ∧
    jsTrim ('f' :: ("irst").data) = ("first").data :=
  ⟨by decide, by decide, by decide,
    C7_explanation_stops_at_newline 'f' ("irst").data ("second\nTREATMENT: T").data
      (by decide) (by decide) (by decide),
    by decide⟩

/-- C8: for every raw response text, `rawResponse` is preserved verbatim,
and each field whose label does not occur (case-insensitively) in the text
is filled with its default: disease `Unable to diagnose`, confidence `Low`,
explanation the entire raw response, treatment `Consult veterinarian`. -/
theorem C8_missing_labels_default (r : JStr) :
    (parseDiagnosis r).rawResponse = some r ∧
    (isSubstr ("disease:").data (lowerStr r) = false →
      (parseDiagnosis r).disease = ("Unable to diagnose").data) ∧
    (isSubstr ("confidence:").data (lowerStr r) = false →
      (parseDiagnosis r).confidence = ("Low").data) ∧
    (isSubstr ("explanation:").data (lowerStr r) = false →
      (parseDiagnosis r).explanation = r) ∧
    (isSubstr ("treatment:").data (lowerStr r) = false →
      (parseDiagnosis r).treatment = ("Consult veterinarian").data) := by
  refine ⟨rfl, fun h => ?_, fun h => ?_, fun h => ?_, fun h => ?_⟩
  · simp only [parseDiagnosis]
    rw [show matchDisease r = none from scanMatch_eq_none _ h]
  · simp only [parseDiagnosis]
    rw [show matchConfidence r = none from scanMatch_eq_none _ h]
  · simp only [parseDiagnosis]
    rw [show matchExplanation r = none from scanMatch_eq_none _ h]
  · simp only [parseDiagnosis]
    rw [show matchTreatment r = none from scanMatch_eq_none _ h]

/-- Witness for C8 on text missing only a `TREATMENT:` line: the treatment
defaults while the other three fields parse normally and the raw text is
preserved. -/
theorem C8_missing_labels_default_witness :
    isSubstr ("treatment:").data (lowerStr ex8txt) = false ∧
    (parseDiagnosis ex8txt).treatment = ("Consult veterinarian").data ∧
    (parseDiagnosis ex8txt).disease = ("Foo").data ∧
    (parseDiagnosis ex8txt).confidence = ("High").data ∧
    (parseDiagnosis ex8txt).explanation = ("Bar").data ∧
    (parseDiagnosis ex8txt).rawResponse = some ex8txt :=
  ⟨by decide, (C8_missing_labels_default ex8txt).2.2.2.2 (by decide),
    by decide, by decide, by decide, (C8_missing_labels_default ex8txt).1⟩

/-- C9 counterexample: two calls to `diagnoseDiseaseFromSymptoms` that are
identical in question, corpus, and deterministic mocked provider, but occur
at different timestamps, produce different output: the prompt embeds
`Date.now() % 1000` as an `Analysis ID`, and a provider that reads the
system message therefore answers differently. -/
theorem C9_counterexample :
    diagnoseDiseaseFromSymptoms envSeed [("fever").data] [chunkA] 0 ≠
      diagnoseDiseaseFromSymptoms envSeed [("fever").data] [chunkA] 1 :=
  fun h => absurd (congrArg rawOf h) (by decide)

/-- C9 amended: `generateRAGAnswer` is a pure function of its inputs, and
`diagnoseDiseaseFromSymptoms` is deterministic once the timestamp is fixed
modulo 1000 — the only ambient dependence is the `Date.now() % 1000` seed
interpolated into the system message. -/
theorem C9_deterministic_given_timestamp (env : Env) (question : JStr)
    (allChunks : List TextChunk) (topK : Nat) (symptoms : List JStr)
    (t1 t2 : Nat) (h : t1 % 1000 = t2 % 1000) :
    generateRAGAnswer env question allChunks topK =
      generateRAGAnswer env question allChunks topK ∧
    diagnoseDiseaseFromSymptoms env symptoms allChunks t1 =
      diagnoseDiseaseFromSymptoms env symptoms allChunks t2 := by
  refine ⟨rfl, ?_⟩
  simp only [diagnoseDiseaseFromSymptoms]
  rw [h]

/-- Witness for the amended C9: timestamps 5 and 1005 agree modulo 1000 and
produce identical diagnoses under the seed-sensitive mocked provider. -/
theorem C9_deterministic_given_timestamp_witness :
    5 % 1000 = 1005 % 1000 ∧
    diagnoseDiseaseFromSymptoms envSeed [("fever").data] [chunkA] 5 =
      diagnoseDiseaseFromSymptoms envSeed [("fever").data] [chunkA] 1005 :=
  ⟨by decide,
    (C9_deterministic_given_timestamp envSeed ("q").data [chunkA] 3
      [("fever").data] 5 1005 (by decide)).2⟩

/-- Witness for C10 at the concrete environment `envEmbedFail`. -/
theorem C10_embedding_fatal_witness :
    envEmbedFail.generateEmbedding ("q").data = Except.error ("embed down").data ∧
    envEmbedFail.generateEmbedding (diagnosticQuery [("fever").data]) =
      Except.error ("embed down").data ∧
    (generateRAGAnswer envEmbedFail ("q").data [chunkA] 3 =
      Except.error (("Failed to generate answer: ").data ++ ("embed down").data) ∧
     diagnoseDiseaseFromSymptoms envEmbedFail [("fever").data] [chunkA] 0 =
      Except.error (("Failed to diagnose disease: ").data ++ ("embed down").data)) :=
  ⟨rfl, rfl, C10_embedding_fatal rfl rfl⟩

end JeevBandhu
